import Mathlib

/-
Verification of the xeno dependency-injection container and its shell helper.

The repository sources available are the test suite (test.py) and the shell
wrapper (xeno/shell.py).  The injection engine itself (the Injector class,
the provide/inject markers, the module scanner, cycle checker, resolver,
method injector and interceptor chain) is not among the source files, so it
is modelled from the specification; every such definition carries a doc
comment starting with "Modelled from the spec".  The Shell definitions are
translated directly from xeno/shell.py.
-/

namespace Xeno

/-- Python-like runtime values, sufficient for the resources the modules and
targets of this repository exchange (strings, integers, None). -/
inductive Value where
  | vstr : String → Value
  | vint : Int → Value
  | vnone : Value
deriving DecidableEq, Repr

/-- Association-list lookup keyed by strings, used for the provider map, the
resolution cache, dependency maps and instance attribute dictionaries. -/
def lookupStr {A : Type} : List (String × A) → String → Option A
  | [], _ => none
  | (k, v) :: rest, key => if k = key then some v else lookupStr rest key

/-- Association-list update: replaces the binding for the key if present,
otherwise appends it (Python dict assignment semantics). -/
def setStr {A : Type} : List (String × A) → String → A → List (String × A)
  | [], key, v => [(key, v)]
  | (k, w) :: rest, key, v =>
    if k = key then (key, v) :: rest else (k, w) :: setStr rest key v

/-- A map from resource names to resolved values, as handed to interceptors
and consumers. -/
def DepMap : Type := List (String × Value)

/-- A formal parameter: a name and an optional declared default value. -/
structure Param where
  name : String
  default : Option Value
deriving DecidableEq, Repr

/-- Modelled from the spec (§4.3): the shape of a Python callable signature
as the injector inspects it — the named positional-or-keyword parameters
(excluding the implicit receiver), whether a variadic catch-all positional
parameter is declared, and the keyword-only parameters. -/
structure Sig where
  params : List Param
  hasVarArgs : Bool
  kwOnly : List Param

/-- Modelled from the spec (§4.3): a signature is illegal when it declares a
variadic catch-all positional parameter and also keyword-only parameters. -/
def Sig.isIllegal (s : Sig) : Bool := s.hasVarArgs && !s.kwOnly.isEmpty

/-- All named parameters of a signature, in declaration order. -/
def Sig.allParams (s : Sig) : List Param := s.params ++ s.kwOnly

/-- The declared parameter names of a signature. -/
def Sig.names (s : Sig) : List String := s.allParams.map Param.name

/-- Modelled from the spec (§3, ProviderBinding): a provider captured as a
deferred binding — its declared signature and the computation it performs on
the resolved (and intercepted) dependency map. -/
structure Provider where
  sig : Sig
  impl : DepMap → Value

/-- Modelled from the spec (§4.1): a module class, with the providers it
declares itself and an optional parent module class. -/
inductive ModuleClass where
  | mk : List (String × Provider) → Option ModuleClass → ModuleClass

/-- Modelled from the spec (§4.1): scanning a module walks its type and all
ancestor types collecting provider bindings; a more-derived declaration
overrides a same-named declaration from a less-derived type. -/
def ModuleClass.scan : ModuleClass → List (String × Provider)
  | .mk own parent =>
    let base := match parent with
      | some p => ModuleClass.scan p
      | none => []
    own.foldl (fun acc kv => setStr acc kv.1 kv.2) base

/-- Modelled from the spec (§4.1): merging a later-registered module into an
accumulated provider map; the later module's bindings win. -/
def mergeProviderMap (acc extra : List (String × Provider)) :
    List (String × Provider) :=
  extra.foldl (fun a kv => setStr a kv.1 kv.2) acc

/-- Modelled from the spec (§4.2): the dependencies of a resource in the
static graph — the declared parameter names of its provider that match
another entry in the provider map. -/
def providerDeps (pm : List (String × Provider)) (name : String) :
    List String :=
  match lookupStr pm name with
  | some p => p.sig.names.filter (fun n => (lookupStr pm n).isSome)
  | none => []

/-- Modelled from the spec (§4.2): bounded reachability in the dependency
graph; fuel bounds the path length. -/
def canReach (pm : List (String × Provider)) :
    Nat → String → String → Bool
  | 0, _, _ => false
  | fuel + 1, a, b =>
    (providerDeps pm a).any (fun c => c = b || canReach pm fuel c b)

/-- Modelled from the spec (§4.2): the static dependency graph has a cycle
iff some resource name can reach itself; a shortest cycle visits at most
every node once, so fuel equal to the map size suffices. -/
def hasCycle (pm : List (String × Provider)) : Bool :=
  (pm.map Prod.fst).any (fun k => canReach pm pm.length k k)

/-- The two error kinds the injector surfaces (§7). -/
inductive Err where
  | injectionError
  | circularDependencyError
deriving DecidableEq, Repr

/-- Modelled from the spec (§4.5): an interceptor receives contextual
attributes identifying the consumer and the current name-to-value map, and
returns a possibly mutated map. -/
def Interceptor : Type := String → DepMap → DepMap

/-- Modelled from the spec (§3, §6): an injector holds the immutable
provider map built at construction and the ordered interceptor list. -/
structure Injector where
  providers : List (String × Provider)
  interceptors : List Interceptor

/-- Modelled from the spec (§6): constructing an injector scans the modules
in registration order and fails with a circular-dependency error, before any
resolution, if the static graph has a cycle. -/
def mkInjector (modules : List ModuleClass) : Except Err Injector :=
  let pm := modules.foldl (fun acc m => mergeProviderMap acc m.scan) []
  if hasCycle pm then Except.error Err.circularDependencyError
  else Except.ok { providers := pm, interceptors := [] }

/-- Modelled from the spec (§6): appends an interceptor to the injector's
ordered list; interceptors cannot be removed. -/
def Injector.addInjectionInterceptor (inj : Injector) (f : Interceptor) :
    Injector :=
  { inj with interceptors := inj.interceptors ++ [f] }

/-- Modelled from the spec (§4.5): a resolved parameter map is passed
through every registered interceptor in registration order, each receiving
the output of the previous one. -/
def applyInterceptors (ics : List Interceptor) (attrs : String)
    (m : DepMap) : DepMap :=
  ics.foldl (fun acc f => f attrs acc) m

/-- The resolution cache: resource name to resolved value, scoped to one
injector, populated on first resolution (§3). -/
def Cache : Type := List (String × Value)

/-- The outcome of one resolution step: the resolved value and the updated
cache, or an error. -/
def ResOut : Type := Except Err (Value × Cache)

/-- Modelled from the spec (§4.3): resolves one named parameter of a
consumer.  An explicit caller override wins; otherwise a registered provider
is resolved recursively (taking precedence over any default); otherwise a
declared default is used verbatim; otherwise resolution fails. -/
def resolveOneParam (res : Cache → String → ResOut)
    (pm : List (String × Provider)) (overrides : DepMap) (cache : Cache)
    (p : Param) : ResOut :=
  match lookupStr overrides p.name with
  | some v => Except.ok (v, cache)
  | none =>
    if (lookupStr pm p.name).isSome then res cache p.name
    else
      match p.default with
      | some v => Except.ok (v, cache)
      | none => Except.error Err.injectionError

/-- Modelled from the spec (§4.3): resolves each named parameter of a
signature independently, threading the cache, and returns the resolved
name-to-value map in declaration order. -/
def resolveParamList (res : Cache → String → ResOut)
    (pm : List (String × Provider)) (overrides : DepMap) :
    Cache → List Param → Except Err (DepMap × Cache)
  | cache, [] => Except.ok ([], cache)
  | cache, p :: rest =>
    match resolveOneParam res pm overrides cache p with
    | Except.error e => Except.error e
    | Except.ok (v, cache1) =>
      match resolveParamList res pm overrides cache1 rest with
      | Except.error e => Except.error e
      | Except.ok (dm, cache2) => Except.ok ((p.name, v) :: dm, cache2)

/-- Modelled from the spec (§4.3-§4.5): one step of resolving a resource by
name.  A cached value is reused; otherwise the provider is looked up, its
signature validated at this point of invocation, its own parameters resolved
recursively through the continuation, the resulting map passed through the
interceptor chain, the provider invoked, and the result memoized. -/
def resolveStep (pm : List (String × Provider)) (ics : List Interceptor)
    (res : Cache → String → ResOut) (cache : Cache) (name : String) :
    ResOut :=
  match lookupStr cache name with
  | some v => Except.ok (v, cache)
  | none =>
    match lookupStr pm name with
    | none => Except.error Err.injectionError
    | some p =>
      if p.sig.isIllegal then Except.error Err.injectionError
      else
        match resolveParamList res pm [] cache p.sig.allParams with
        | Except.error e => Except.error e
        | Except.ok (dm, cache1) =>
          let dm1 := applyInterceptors ics name dm
          let v := p.impl dm1
          Except.ok (v, setStr cache1 name v)

/-- Modelled from the spec (§4.3): the resolver, as fuel-indexed iteration
of the resolution step; on an acyclic provider map fuel equal to the number
of providers plus one always suffices. -/
def resolveName (inj : Injector) : Nat → Cache → String → ResOut
  | 0 => fun _ _ => Except.error Err.injectionError
  | fuel + 1 => resolveStep inj.providers inj.interceptors
      (resolveName inj fuel)

/-- The default fuel an injector uses for resolution: enough for any acyclic
dependency chain over its provider map. -/
def Injector.fuelN (inj : Injector) : Nat := inj.providers.length + 1

/-- Modelled from the spec (§4.4): an injection-marked method — its name,
declared signature, and the attribute assignments it performs on the
instance given its resolved (and intercepted) dependency map. -/
structure InjectionMethod where
  mname : String
  sig : Sig
  impl : DepMap → List (String × Value)

/-- Modelled from the spec (§3, InjectionTarget): a target class — an
optionally declared constructor (signature plus the attribute assignments it
performs), the injection-marked methods the class declares itself, and an
optional parent class. -/
inductive PyClass where
  | mk : Option (Sig × (DepMap → List (String × Value))) →
      List InjectionMethod → Option PyClass → PyClass

/-- The constructor that is actually invoked for a class: its own declared
constructor, otherwise the nearest ancestor's, otherwise none (the implicit
default constructor, which requires no parameters). -/
def PyClass.effectiveCtor :
    PyClass → Option (Sig × (DepMap → List (String × Value)))
  | .mk (some c) _ _ => some c
  | .mk none _ parent =>
    match parent with
    | some p => PyClass.effectiveCtor p
    | none => none

/-- Modelled from the spec (§4.4): collects every injection-marked method
across the full ancestor chain, root ancestor first; same-named methods on
distinct ancestors are kept as independent injection points, never
deduplicated. -/
def PyClass.collectInjectors : PyClass → List InjectionMethod
  | .mk _ own parent =>
    (match parent with
     | some p => PyClass.collectInjectors p
     | none => []) ++ own

/-- An instance: its attribute dictionary. -/
def Instance : Type := List (String × Value)

/-- Applies a list of attribute assignments to an instance in order. -/
def applyUpdates (inst : Instance) (ups : List (String × Value)) :
    Instance :=
  ups.foldl (fun i kv => setStr i kv.1 kv.2) inst

/-- Modelled from the spec (§4.4): invokes each collected injection method
exactly once — validating its signature at invocation time, resolving its
parameters by name, passing the map through the interceptor chain, and
applying the attribute assignments it produces. -/
def runInjectors (inj : Injector) (fuel : Nat) :
    Cache → Instance → List InjectionMethod →
    Except Err (Instance × Cache)
  | cache, inst, [] => Except.ok (inst, cache)
  | cache, inst, m :: rest =>
    if m.sig.isIllegal then Except.error Err.injectionError
    else
      match resolveParamList (resolveName inj fuel) inj.providers [] cache
          m.sig.allParams with
      | Except.error e => Except.error e
      | Except.ok (dm, cache1) =>
        let dm1 := applyInterceptors inj.interceptors m.mname dm
        runInjectors inj fuel cache1 (applyUpdates inst (m.impl dm1)) rest

/-- Modelled from the spec (§6): method injection on an already-constructed
instance — runs only the injection-marked methods of the instance's class
chain; the constructor is never consulted. -/
def Injector.inject (inj : Injector) (cache : Cache) (cls : PyClass)
    (inst : Instance) : Except Err (Instance × Cache) :=
  runInjectors inj inj.fuelN cache inst cls.collectInjectors

/-- Modelled from the spec (§6): creates an instance — validates the
effective constructor signature, resolves its parameters (caller overrides
taking precedence), passes the map through the interceptor chain, performs
the constructor's attribute assignments, then runs method injection.  A
class with no declared constructor is built with zero resolved values. -/
def Injector.create (inj : Injector) (cache : Cache) (cls : PyClass)
    (overrides : DepMap) : Except Err (Instance × Cache) :=
  match cls.effectiveCtor with
  | none => runInjectors inj inj.fuelN cache [] cls.collectInjectors
  | some (csig, cimpl) =>
    if csig.isIllegal then Except.error Err.injectionError
    else
      match resolveParamList (resolveName inj inj.fuelN) inj.providers
          overrides cache csig.allParams with
      | Except.error e => Except.error e
      | Except.ok (dm, cache1) =>
        let dm1 := applyInterceptors inj.interceptors "__init__" dm
        runInjectors inj inj.fuelN cache1 (applyUpdates [] (cimpl dm1))
          cls.collectInjectors

/-- A filesystem path, as shell.py uses pathlib.Path. -/
abbrev Path : Type := String

/-- The ambient filesystem state shell.py consults: existence and
directory-ness of paths, and the current working directory returned by
Path.cwd(). -/
structure FileSystem where
  pathExists : Path → Bool
  isDir : Path → Bool
  cwdPath : Path

/-- Python values as they occur in an EnvDict handed to digest_env: strings,
integers, or lists of values. -/
inductive PyVal where
  | pstr : String → PyVal
  | pint : Int → PyVal
  | plist : List PyVal → PyVal

/-- Modelled from the spec: xeno.utils.is_iterable is imported by shell.py
but utils.py is not among the sources; per the shell code's use it
distinguishes list-like values (joined element-wise by digest_env) from
scalar values (stringified directly), with strings treated as scalars. -/
def is_iterable : PyVal → Bool
  | PyVal.plist _ => true
  | _ => false

mutual

/-- The repr of a Python value, as str() falls back to for lists. -/
def pyRepr : PyVal → String
  | PyVal.pstr s => "\x27" ++ s ++ "\x27"
  | PyVal.pint n => toString n
  | PyVal.plist l => "[" ++ pyReprSep l ++ "]"

/-- Comma-separates the reprs of a list of values. -/
def pyReprSep : List PyVal → String
  | [] => ""
  | [v] => pyRepr v
  | v :: rest => pyRepr v ++ ", " ++ pyReprSep rest

end

/-- str() on a Python value. -/
def pyStr : PyVal → String
  | PyVal.pstr s => s
  | PyVal.pint n => toString n
  | v => pyRepr v

/-- Is the character safe to leave unquoted, per shlex.quote's unsafe-char
pattern: ASCII word characters and the punctuation at-sign, percent, plus,
equals, colon, comma, dot, slash, hyphen. -/
def shellSafeChar (c : Char) : Bool :=
  c.isAlphanum || c = '_' || c = '@' || c = '%' || c = '+' || c = '=' ||
    c = ':' || c = ',' || c = '.' || c = '/' || c = '-'

/-- shlex.quote: the empty string becomes a pair of single quotes, a string
of safe characters is returned as is, anything else is wrapped in single
quotes with embedded single quotes escaped. -/
def shlexQuote (s : String) : String :=
  if s.isEmpty then "\x27\x27"
  else if s.toList.all shellSafeChar then s
  else "\x27" ++ s.replace "\x27" "\x27\"\x27\"\x27" ++ "\x27"

/-- Flattening of one EnvDict value, per the body of digest_env's loop: an
iterable is joined from its shell-quoted stringified elements, anything else
is stringified. -/
def digestVal (v : PyVal) : String :=
  if is_iterable v then
    match v with
    | PyVal.plist l => " ".intercalate (l.map fun s => shlexQuote (pyStr s))
    | w => pyStr w
  else pyStr v

/-- digest_env from shell.py: flattens an EnvDict into a string-to-string
dict, building it up key by key in iteration order. -/
def digest_env (env : List (String × PyVal)) : List (String × String) :=
  env.foldl (fun acc kv => setStr acc kv.1 (digestVal kv.2)) []

/-- digest_params from shell.py: like digest_env but joins iterables without
shell quoting. -/
def digest_params (params : List (String × PyVal)) :
    List (String × String) :=
  params.foldl
    (fun acc kv =>
      let value := match kv.2 with
        | PyVal.plist l => " ".intercalate (l.map pyStr)
        | w => pyStr w
      setStr acc kv.1 value) []

/-- The Shell state from shell.py: the digested environment _env and the
working directory _cwd. -/
structure Shell where
  envMap : List (String × String)
  cwd : Path
deriving DecidableEq, Repr

/-- Shell.__init__: digests the given environment and defaults the working
directory to Path.cwd() when none is given. -/
def Shell.make (fs : FileSystem) (env : List (String × PyVal))
    (cwd : Option Path) : Shell :=
  { envMap := digest_env env, cwd := cwd.getD fs.cwdPath }

/-- Lifts an already-digested string dict back to an EnvDict, as Python's
splatting of self._env into a new dict does implicitly. -/
def liftEnv (m : List (String × String)) : List (String × PyVal) :=
  m.map fun kv => (kv.1, PyVal.pstr kv.2)

/-- Python dict merge as in Shell.env's argument: all entries of the first
dict, updated or extended by the second. -/
def mergeDicts {A : Type} (a b : List (String × A)) : List (String × A) :=
  b.foldl (fun acc kv => setStr acc kv.1 kv.2) a

/-- Shell.env: returns a new Shell built from the merged environment and the
receiver's working directory; the receiver is not modified. -/
def Shell.env (fs : FileSystem) (s : Shell)
    (newEnv : List (String × PyVal)) : Shell :=
  Shell.make fs (mergeDicts (liftEnv s.envMap) newEnv) (some s.cwd)

/-- Shell.cd: asserts that the new working directory exists and is a
directory, then returns a new Shell with the receiver's environment and the
new working directory; the receiver is not modified. -/
def Shell.cd (fs : FileSystem) (s : Shell) (newCwd : Path) :
    Except String Shell :=
  if fs.pathExists newCwd && fs.isDir newCwd then
    Except.ok (Shell.make fs (liftEnv s.envMap) (some newCwd))
  else Except.error "Invalid directory provided."

/-- A signature with the given positional-or-keyword parameter names, no
variadic catch-all and no keyword-only parameters. -/
def sigOf (ps : List String) : Sig :=
  { params := ps.map fun s => { name := s, default := none },
    hasVarArgs := false, kwOnly := [] }

/-- A provider with no parameters returning a constant value. -/
def constProvider (v : Value) : Provider :=
  { sig := sigOf [], impl := fun _ => v }

/-- Reads an attribute off the instance built by create, when both injector
construction and creation succeed. -/
def createdAttr (einj : Except Err Injector) (cls : PyClass)
    (attr : String) : Option Value :=
  match einj with
  | Except.error _ => none
  | Except.ok inj =>
    match inj.create [] cls [] with
    | Except.error _ => none
    | Except.ok (inst, _) => lookupStr inst attr

/-- A module declaring a single constant provider under the given name. -/
def oneProviderModule (n : String) (v : Value) : ModuleClass :=
  ModuleClass.mk [(n, constProvider v)] none

/-- A target class whose constructor takes the single parameter named n and
stores it on the attribute of the same name. -/
def oneParamClass (n : String) : PyClass :=
  PyClass.mk
    (some (sigOf [n],
      fun dm => [(n, (lookupStr dm n).getD Value.vnone)]))
    [] none

/-- C1: a module with a provider named n returning the constant v, and a
target class whose constructor declares the parameter n, yield via create an
instance whose attribute n holds v. -/
theorem c1_ctor_injection (n : String) (v : Value) :
    createdAttr (mkInjector [oneProviderModule n v]) (oneParamClass n) n =
      some v := by
  simp [createdAttr, mkInjector, oneProviderModule, oneParamClass,
    mergeProviderMap, ModuleClass.scan, setStr, hasCycle, canReach,
    providerDeps, lookupStr, sigOf, constProvider, Sig.allParams, Sig.names,
    Injector.create, PyClass.effectiveCtor, Sig.isIllegal, Injector.fuelN,
    resolveParamList, resolveOneParam, resolveName, resolveStep,
    applyInterceptors, runInjectors, PyClass.collectInjectors, applyUpdates]

/-- The module of test_cycle_check: providers a, b, c where a depends on b,
b on c and c on a. -/
def cycModule : ModuleClass :=
  ModuleClass.mk
    [("a", { sig := sigOf ["b"], impl := fun _ => Value.vint 1 }),
     ("b", { sig := sigOf ["c"], impl := fun _ => Value.vint 1 }),
     ("c", { sig := sigOf ["a"], impl := fun _ => Value.vint 1 })] none

/-- Tests whether an injector outcome is the circular-dependency error. -/
def isCircErrE {A : Type} : Except Err A → Bool
  | Except.error Err.circularDependencyError => true
  | _ => false

/-- Whether an error is the circular one does not depend on the success
type of the Except it travels in. -/
theorem isCircErrE_error_cast {A B : Type} (e : Err)
    (h : isCircErrE (Except.error e : Except Err A) = false) :
    isCircErrE (Except.error e : Except Err B) = false := by
  cases e with
  | injectionError => rfl
  | circularDependencyError => simp [isCircErrE] at h

/-- Resolving a single parameter never produces the circular-dependency
error, provided the recursive resolver never does. -/
theorem resolveOneParam_no_circ (res : Cache → String → ResOut)
    (pm : List (String × Provider)) (ov : DepMap) (cache : Cache)
    (p : Param) (h : ∀ c n, isCircErrE (res c n) = false) :
    isCircErrE (resolveOneParam res pm ov cache p) = false := by
  unfold resolveOneParam
  cases lookupStr ov p.name with
  | some v => rfl
  | none =>
    cases hp : (lookupStr pm p.name).isSome with
    | true => simp [hp, h]
    | false =>
      simp only [hp, Bool.false_eq_true, if_false]
      cases p.default with
      | some v => rfl
      | none => rfl

/-- Resolving a parameter list never produces the circular-dependency
error, provided the recursive resolver never does. -/
theorem resolveParamList_no_circ (res : Cache → String → ResOut)
    (pm : List (String × Provider)) (ov : DepMap) (cache : Cache)
    (ps : List Param) (h : ∀ c n, isCircErrE (res c n) = false) :
    isCircErrE (resolveParamList res pm ov cache ps) = false := by
  induction ps generalizing cache with
  | nil => rfl
  | cons p rest ih =>
    unfold resolveParamList
    split
    case _ e heq =>
      have hr := resolveOneParam_no_circ res pm ov cache p h
      rw [heq] at hr
      exact isCircErrE_error_cast e hr
    case _ v cache1 heq =>
      split
      case _ e heq2 =>
        have hr := ih cache1
        rw [heq2] at hr
        exact hr
      case _ dm cache2 heq2 => rfl

/-- One resolution step never produces the circular-dependency error,
provided the recursive resolver never does. -/
theorem resolveStep_no_circ (pm : List (String × Provider))
    (ics : List Interceptor) (res : Cache → String → ResOut)
    (cache : Cache) (name : String)
    (h : ∀ c n, isCircErrE (res c n) = false) :
    isCircErrE (resolveStep pm ics res cache name) = false := by
  unfold resolveStep
  cases lookupStr cache name with
  | some v => rfl
  | none =>
    cases lookupStr pm name with
    | none => rfl
    | some p =>
      cases hill : p.sig.isIllegal with
      | true => simp only [hill, if_true]; rfl
      | false =>
        simp only [hill, Bool.false_eq_true, if_false]
        split
        case _ e heq =>
          have hr := resolveParamList_no_circ res pm [] cache
            p.sig.allParams h
          rw [heq] at hr
          exact isCircErrE_error_cast e hr
        case _ dm cache1 heq => rfl

/-- The resolver never produces the circular-dependency error, at any fuel,
cache and name: cycles are not detected lazily during resolution. -/
theorem resolveName_no_circ (inj : Injector) (fuel : Nat) (cache : Cache)
    (name : String) :
    isCircErrE (resolveName inj fuel cache name) = false := by
  induction fuel generalizing cache name with
  | zero => rfl
  | succ n ih =>
    exact resolveStep_no_circ inj.providers inj.interceptors
      (resolveName inj n) cache name ih

/-- C2: providers forming the static cycle a to b to c to a make Injector
construction itself fail with the circular-dependency error, so no injector
is produced; and resolution never reports a circular dependency lazily, at
any fuel, cache and resource name. -/
theorem c2_cycle_detected_at_construction :
    mkInjector [cycModule] = Except.error Err.circularDependencyError ∧
      ∀ (inj : Injector) (fuel : Nat) (cache : Cache) (name : String),
        isCircErrE (resolveName inj fuel cache name) = false := by
  constructor
  · rfl
  · exact resolveName_no_circ

/-- The target class of the defaults tests: constructor parameters name and
last_name, the latter with declared default d, both stored as attributes. -/
def defaultsClass (d : Value) : PyClass :=
  PyClass.mk
    (some
      ({ params := [{ name := "name", default := none },
          { name := "last_name", default := some d }],
         hasVarArgs := false, kwOnly := [] },
       fun dm =>
         [("name", (lookupStr dm "name").getD Value.vnone),
          ("last_name", (lookupStr dm "last_name").getD Value.vnone)]))
    [] none

/-- A module declaring two constant providers name and last_name. -/
def twoProviderModule (v w : Value) : ModuleClass :=
  ModuleClass.mk
    [("name", constProvider v), ("last_name", constProvider w)] none

/-- C3: a constructor parameter with declared default keeps the default
verbatim when no provider matches its name, and takes the provider's
resolved value instead when one is registered. -/
theorem c3_defaults_vs_provider (v d w : Value) :
    createdAttr (mkInjector [oneProviderModule "name" v]) (defaultsClass d)
        "last_name" = some d ∧
      createdAttr (mkInjector [twoProviderModule v w]) (defaultsClass d)
        "last_name" = some w := by
  constructor <;>
    simp [createdAttr, mkInjector, oneProviderModule, twoProviderModule,
      defaultsClass, mergeProviderMap, ModuleClass.scan, setStr, hasCycle,
      canReach, providerDeps, lookupStr, sigOf, constProvider,
      Sig.allParams, Sig.names, Injector.create, PyClass.effectiveCtor,
      Sig.isIllegal, Injector.fuelN, resolveParamList, resolveOneParam,
      resolveName, resolveStep, applyInterceptors, runInjectors,
      PyClass.collectInjectors, applyUpdates]

/-- C4: a constructor declaring both a variadic catch-all positional
parameter and a keyword-only parameter always makes create fail with the
injection error, whatever the injector, cache, overrides, injection methods
and ancestry. -/
theorem c4_illegal_ctor_always_fails (inj : Injector) (cache : Cache)
    (ov : DepMap) (csig : Sig) (cimpl : DepMap → List (String × Value))
    (own : List InjectionMethod) (parent : Option PyClass)
    (hv : csig.hasVarArgs = true) (hk : csig.kwOnly ≠ []) :
    inj.create cache (PyClass.mk (some (csig, cimpl)) own parent) ov =
      Except.error Err.injectionError := by
  have hil : csig.isIllegal = true := by
    cases hke : csig.kwOnly with
    | nil => exact absurd hke hk
    | cons a l => simp [Sig.isIllegal, hv, hke]
  unfold Injector.create PyClass.effectiveCtor
  simp [hil]

/-- Witness for C4 at the signature of test_illegal_ctor_injection's
NamePrinter: a variadic catch-all plus the keyword-only parameter name. -/
theorem c4_illegal_ctor_always_fails_witness :
    Injector.create { providers := [], interceptors := [] } []
      (PyClass.mk
        (some ({ params := [], hasVarArgs := true,
                 kwOnly := [{ name := "name", default := none }] },
               fun _ => []))
        [] none) [] = Except.error Err.injectionError :=
  c4_illegal_ctor_always_fails { providers := [], interceptors := [] } []
    [] _ _ [] none rfl (by decide)

/-- Unpacks a successfully constructed injector; a failed construction
yields the empty injector. -/
def theInjector (e : Except Err Injector) : Injector :=
  match e with
  | Except.ok inj => inj
  | Except.error _ => { providers := [], interceptors := [] }

/-- The error create stops with, if any, for a given injector outcome and
target class. -/
def createOutcome (einj : Except Err Injector) (cls : PyClass) :
    Option Err :=
  match einj with
  | Except.error e => some e
  | Except.ok inj =>
    match inj.create [] cls [] with
    | Except.error e => some e
    | Except.ok _ => none

/-- The full_name provider of test_illegal_module_injection: an illegal
signature (variadic catch-all plus the keyword-only parameters name and
last_name) concatenating its two dependencies. -/
def fullNameProvider : Provider :=
  { sig := { params := [], hasVarArgs := true,
             kwOnly := [{ name := "name", default := none },
                        { name := "last_name", default := none }] },
    impl := fun dm =>
      match lookupStr dm "name", lookupStr dm "last_name" with
      | some (Value.vstr a), some (Value.vstr b) => Value.vstr (a ++ b)
      | _, _ => Value.vnone }

/-- The module of test_illegal_module_injection: two legal constant
providers and the illegal full_name provider. -/
def illegalModule : ModuleClass :=
  ModuleClass.mk
    [("name", constProvider (Value.vstr "Lain")),
     ("last_name", constProvider (Value.vstr "Supe")),
     ("full_name", fullNameProvider)] none

/-- C5: a provider with an illegal signature is rejected only when it is
actually invoked: constructing the injector over such a module succeeds, a
create that needs the provider fails with the injection error, a create that
never touches it succeeds, and in general any uncached resource whose
registered provider has an illegal signature resolves to the injection error
the moment it is demanded. -/
theorem c5_illegal_provider_fails_lazily :
    (mkInjector [illegalModule]).isOk = true ∧
      createOutcome (mkInjector [illegalModule])
        (oneParamClass "full_name") = some Err.injectionError ∧
      createdAttr (mkInjector [illegalModule]) (oneParamClass "name")
        "name" = some (Value.vstr "Lain") ∧
      ∀ (inj : Injector) (fuel : Nat) (cache : Cache) (name : String)
        (p : Provider), lookupStr cache name = none →
        lookupStr inj.providers name = some p → p.sig.isIllegal = true →
        resolveName inj (fuel + 1) cache name =
          Except.error Err.injectionError := by
  refine ⟨rfl, by decide, by decide, ?_⟩
  intro inj fuel cache name p hc hp hil
  unfold resolveName resolveStep
  rw [hc, hp]
  simp [hil]

/-- Witness for C5's general clause at the full_name provider of the
illegal module. -/
theorem c5_illegal_provider_fails_lazily_witness :
    resolveName (theInjector (mkInjector [illegalModule])) 1 []
      "full_name" = Except.error Err.injectionError :=
  c5_illegal_provider_fails_lazily.2.2.2
    (theInjector (mkInjector [illegalModule])) 0 [] "full_name"
    fullNameProvider rfl rfl rfl

/-- An injection method that resolves the single resource n and stores it
on the attribute of the same name, under the given method name. -/
def storeMethod (mn n : String) : InjectionMethod :=
  { mname := mn, sig := sigOf [n],
    impl := fun dm => [(n, (lookupStr dm n).getD Value.vnone)] }

/-- The Parent class of test_inject_from_subclass: an injection method
named inject consuming a. -/
def parentClass : PyClass :=
  PyClass.mk none [storeMethod "inject" "a"] none

/-- The Child class of test_inject_from_subclass: its own injection method,
also named inject, consuming b, atop Parent. -/
def childClass : PyClass :=
  PyClass.mk none [storeMethod "inject" "b"] (some parentClass)

/-- The module of test_inject_from_subclass: constant providers a and b. -/
def abModule : ModuleClass :=
  ModuleClass.mk
    [("a", constProvider (Value.vint 1)),
     ("b", constProvider (Value.vint 2))] none

/-- C6: when both an ancestor and the subclass declare a same-named
injection method, creating the subclass instance runs both — the attribute
each sets is observable — and, in general, the collected injection chain of
a class with a parent is the parent's chain followed by the class's own
methods, with no same-name suppression. -/
theorem c6_same_named_injectors_both_run :
    createdAttr (mkInjector [abModule]) childClass "a" =
        some (Value.vint 1) ∧
      createdAttr (mkInjector [abModule]) childClass "b" =
        some (Value.vint 2) ∧
      ∀ (ctor : Option (Sig × (DepMap → List (String × Value))))
        (own pown : List InjectionMethod)
        (pctor : Option (Sig × (DepMap → List (String × Value)))),
        (PyClass.mk ctor own (some (PyClass.mk pctor pown
          none))).collectInjectors = pown ++ own := by
  refine ⟨by decide, by decide, ?_⟩
  intro ctor own pown pctor
  simp [PyClass.collectInjectors]

/-- str() on an injected value, as the phone-number interceptor of
test_injection_interceptor_for_provider applies it. -/
def valueStr : Value → String
  | Value.vstr s => s
  | Value.vint n => toString n
  | Value.vnone => "None"

/-- The module of test_injection_interceptor_for_provider: phone_number is
a constant integer, and address_card formats it — asserting it arrives as a
string — into a card. -/
def phoneModule : ModuleClass :=
  ModuleClass.mk
    [("phone_number", constProvider (Value.vint 2060000000)),
     ("address_card",
      { sig := sigOf ["phone_number"],
        impl := fun dm =>
          match lookupStr dm "phone_number" with
          | some (Value.vstr s) => Value.vstr ("Lain Supe: " ++ s)
          | _ => Value.vnone })] none

/-- The first interceptor: stringifies phone_number wherever it appears in
a resolved dependency map. -/
def interceptPhoneNumber : Interceptor := fun _ dm =>
  match lookupStr dm "phone_number" with
  | some v => setStr dm "phone_number" (Value.vstr (valueStr v))
  | none => dm

/-- The second interceptor: appends the street address to address_card
wherever it appears in a resolved dependency map. -/
def interceptAddressCard : Interceptor := fun _ dm =>
  match lookupStr dm "address_card" with
  | some (Value.vstr s) =>
    setStr dm "address_card"
      (Value.vstr (s ++ "\n2000 Street Blvd, Seattle WA 98125"))
  | _ => dm

/-- The injector of the interceptor test, with both interceptors registered
in order. -/
def interceptedInjector : Injector :=
  ((theInjector (mkInjector [phoneModule])).addInjectionInterceptor
      interceptPhoneNumber).addInjectionInterceptor interceptAddressCard

/-- C7: two registered interceptors run in registration order — the second
sees the first's output — and they run at every resolution step: the
nested provider-to-provider resolution of phone_number is intercepted (the
address_card provider observes the stringified number), and the top-level
constructor map is intercepted as well (the street address is appended), so
the built instance carries the result of the whole chain. -/
theorem c7_interceptors_in_order_everywhere :
    (∀ (f g : Interceptor) (attrs : String) (m : DepMap),
        applyInterceptors [f, g] attrs m = g attrs (f attrs m)) ∧
      createdAttr (Except.ok interceptedInjector)
        (oneParamClass "address_card") "address_card" =
        some (Value.vstr
          "Lain Supe: 2060000000\n2000 Street Blvd, Seattle WA 98125") := by
  exact ⟨fun f g attrs m => rfl, by decide⟩

/-- The target of the instance-injection frame test: a constructor that
would mark the attribute ctor_ran, and one injection method storing the
resource name. -/
def frameClass : PyClass :=
  PyClass.mk (some (sigOf [], fun _ => [("ctor_ran", Value.vint 1)]))
    [storeMethod "set_name" "name"] none

/-- C8: inject on an existing instance runs only the injection-marked
methods: in general its outcome is identical for any two constructors the
class might declare (the constructor is never consulted), and concretely an
instance keeps every attribute not targeted by an injection method while
the targeted one is set — the constructor's ctor_ran mark never appears. -/
theorem c8_inject_never_runs_ctor :
    (∀ (inj : Injector) (cache : Cache) (inst : Instance)
        (ctorA ctorB : Option (Sig × (DepMap → List (String × Value))))
        (own : List InjectionMethod) (parent : Option PyClass),
        inj.inject cache (PyClass.mk ctorA own parent) inst =
          inj.inject cache (PyClass.mk ctorB own parent) inst) ∧
      (theInjector (mkInjector [oneProviderModule "name"
          (Value.vstr "Lain")])).inject [] frameClass
        [("name", Value.vnone), ("hobby", Value.vstr "knitting")] =
        Except.ok
          ([("name", Value.vstr "Lain"),
            ("hobby", Value.vstr "knitting")],
           [("name", Value.vstr "Lain")]) := by
  constructor
  · intro inj cache inst ctorA ctorB own parent
    cases parent <;> simp [Injector.inject, PyClass.collectInjectors]
  · rfl

/-- The parent module of test_provide_from_subclass, providing
first_name. -/
def subModuleBase : ModuleClass :=
  ModuleClass.mk [("first_name", constProvider (Value.vstr "Lain"))] none

/-- The derived module of test_provide_from_subclass, adding last_name atop
the inherited first_name. -/
def subModuleDerived : ModuleClass :=
  ModuleClass.mk [("last_name", constProvider (Value.vstr "Supe"))]
    (some subModuleBase)

/-- A target class whose constructor takes first_name and last_name and
stores both. -/
def namesClass : PyClass :=
  PyClass.mk
    (some (sigOf ["first_name", "last_name"],
      fun dm =>
        [("first_name", (lookupStr dm "first_name").getD Value.vnone),
         ("last_name", (lookupStr dm "last_name").getD Value.vnone)]))
    [] none

/-- C9: scanning a module subclass binds the most-derived declaration for a
name shared with an ancestor while ancestor-only declarations stay
available; concretely, creating from a derived module resolves both the
inherited provider and the module's own. -/
theorem c9_subclass_provider_overrides (n m : String)
    (p0 p1 q : Provider) (hnm : n ≠ m) :
    lookupStr (ModuleClass.scan (ModuleClass.mk [(n, p1)]
        (some (ModuleClass.mk [(n, p0), (m, q)] none)))) n = some p1 ∧
      lookupStr (ModuleClass.scan (ModuleClass.mk [(n, p1)]
        (some (ModuleClass.mk [(n, p0), (m, q)] none)))) m = some q ∧
      createdAttr (mkInjector [subModuleDerived]) namesClass
        "first_name" = some (Value.vstr "Lain") ∧
      createdAttr (mkInjector [subModuleDerived]) namesClass
        "last_name" = some (Value.vstr "Supe") := by
  refine ⟨?_, ?_, by decide, by decide⟩ <;>
    simp [ModuleClass.scan, setStr, lookupStr, hnm]

/-- Witness for C9 at distinct names a and b. -/
theorem c9_subclass_provider_overrides_witness :
    lookupStr (ModuleClass.scan (ModuleClass.mk
        [("a", constProvider (Value.vint 1))]
        (some (ModuleClass.mk
          [("a", constProvider (Value.vint 2)),
           ("b", constProvider (Value.vint 3))] none)))) "a" =
      some (constProvider (Value.vint 1)) :=
  (c9_subclass_provider_overrides "a" "b" (constProvider (Value.vint 2))
    (constProvider (Value.vint 1)) (constProvider (Value.vint 3))
    (by decide)).1

/-- Updating an absent key appends the binding. -/
theorem setStr_of_not_mem {A : Type} (acc : List (String × A))
    (k : String) (v : A) (h : ¬ k ∈ acc.map Prod.fst) :
    setStr acc k v = acc ++ [(k, v)] := by
  induction acc with
  | nil => rfl
  | cons kw rest ih =>
    simp only [List.map_cons, List.mem_cons, not_or] at h
    cases kw with
    | mk k1 w =>
      have h1 : ¬ (k1 = k) := fun e => h.1 e.symm
      simp [setStr, h1, ih h.2]

/-- Folding updates of pairwise-distinct fresh keys into a dict appends
them in order. -/
theorem foldl_setStr_of_nodup {A : Type} (m : List (String × A)) :
    ∀ (acc : List (String × A)), (m.map Prod.fst).Nodup →
    (∀ x ∈ m.map Prod.fst, ¬ x ∈ acc.map Prod.fst) →
    m.foldl (fun a kv => setStr a kv.1 kv.2) acc = acc ++ m := by
  induction m with
  | nil => intro acc _ _; simp
  | cons kv rest ih =>
    intro acc hnd hdisj
    cases kv with
    | mk k v =>
      simp only [List.foldl_cons]
      have hk : ¬ k ∈ acc.map Prod.fst := hdisj k (by simp)
      rw [setStr_of_not_mem acc k v hk]
      simp only [List.map_cons, List.nodup_cons] at hnd
      rw [ih (acc ++ [(k, v)]) hnd.2 ?_]
      · simp
      · intro x hx
        simp only [List.map_append, List.mem_append, not_or]
        refine ⟨hdisj x (by simp [hx]), ?_⟩
        simp only [List.map_cons, List.map_nil, List.mem_singleton]
        exact fun e => hnd.1 (e ▸ hx)

/-- Digesting a dict whose values are already flat strings gives the dict
back, when its keys are distinct. -/
theorem digest_env_liftEnv (m : List (String × String))
    (hnd : (m.map Prod.fst).Nodup) : digest_env (liftEnv m) = m := by
  unfold digest_env liftEnv
  rw [List.foldl_map]
  have hfun : (fun (acc : List (String × String)) (kv : String × String) =>
      setStr acc kv.1 (digestVal (PyVal.pstr kv.2))) =
      fun acc kv => setStr acc kv.1 kv.2 := by
    funext acc kv
    rfl
  have h2 := foldl_setStr_of_nodup m [] hnd (by simp)
  simpa [hfun] using h2

/-- C10: Shell.env returns a fresh Shell whose working directory is the
receiver's and whose environment is the digested merge of the receiver's
environment with the new entries; Shell.cd demands an existing directory —
failing the assertion otherwise — and returns a fresh Shell with the
receiver's environment and the new working directory.  The receiver itself
is a value the operations never modify. -/
theorem c10_shell_env_cd (fs : FileSystem) (s : Shell)
    (e : List (String × PyVal)) (d : Path) :
    (Shell.env fs s e).cwd = s.cwd ∧
      (Shell.env fs s e).envMap =
        digest_env (mergeDicts (liftEnv s.envMap) e) ∧
      (fs.pathExists d = true → fs.isDir d = true →
        (s.envMap.map Prod.fst).Nodup →
        Shell.cd fs s d = Except.ok { envMap := s.envMap, cwd := d }) ∧
      ((fs.pathExists d && fs.isDir d) = false →
        Shell.cd fs s d = Except.error "Invalid directory provided.") := by
  refine ⟨rfl, rfl, ?_, ?_⟩
  · intro hex hdir hnd
    unfold Shell.cd
    simp only [hex, hdir, Bool.and_self, if_true]
    unfold Shell.make
    rw [digest_env_liftEnv s.envMap hnd]
    rfl
  · intro hfail
    unfold Shell.cd
    simp [hfail]

/-- Witness for C10 on a filesystem where only the directory tmp exists. -/
theorem c10_shell_env_cd_witness :
    Shell.cd
      { pathExists := fun p => p == "tmp", isDir := fun p => p == "tmp",
        cwdPath := "/" }
      { envMap := [("HOME", "/root")], cwd := "/" } "tmp" =
      Except.ok { envMap := [("HOME", "/root")], cwd := "tmp" } :=
  (c10_shell_env_cd
    { pathExists := fun p => p == "tmp", isDir := fun p => p == "tmp",
      cwdPath := "/" }
    { envMap := [("HOME", "/root")], cwd := "/" } [] "tmp").2.2.1
    rfl rfl (by decide)

end Xeno
